import Mathlib

/-!
Verification of the Calendar Assistant repository.

The Lean definitions below shallowly embed the Python source:

* `src/agent/agent.py` — the `CalendarAssistantChat` session (`chat`,
  `get_history`, `reset`) and the `AgentExecutor` configuration produced by
  `create_calendar_agent`;
* `src/agent/tools.py` — the six LangChain tool wrapper functions and the
  observation formatters;
* `src/calendar_tools/calendar_operations.py` — the calendar backend
  operations (`create_event`, `update_event`, `delete_event`,
  `check_availability`, `get_daily_report`, `list_upcoming_events`).

External effects (the Google Calendar service, the LLM, `json.loads`,
`datetime` parsing, `pytz` localization) are passed in as explicit oracle
parameters; Python exceptions are explicit `Except` values.
-/

/-! ## Conversation session (src/agent/agent.py, class CalendarAssistantChat) -/

/-- A LangChain chat message: `HumanMessage` or `AIMessage`
(src/agent/agent.py lines 193-196). -/
inductive Msg where
  | human (content : String)
  | ai (content : String)
deriving DecidableEq, Repr

/-- The state owned by `CalendarAssistantChat`: the `self.chat_history` list of
`(user_input, output)` pairs (src/agent/agent.py line 183). -/
structure ChatState where
  chat_history : List (String × String)
deriving DecidableEq, Repr

/-- Python's `l[-k:]`: the suffix of the most recent `k` elements
(all of them when fewer than `k` exist). -/
def lastK (k : Nat) (l : List α) : List α :=
  l.drop (l.length - k)

/-- The `langchain_history` list built at the start of `chat`
(src/agent/agent.py lines 193-196): for each of the last 5 stored pairs, a
`HumanMessage` with the input then an `AIMessage` with the output. -/
def langchainHistory (hist : List (String × String)) : List Msg :=
  (lastK 5 hist).flatMap (fun h => [Msg.human h.1, Msg.ai h.2])

/-- The oracle for `self.agent.invoke({"input": ..., "chat_history": ...})`:
it either raises (an `Except.error` carrying `str(e)`) or returns the response
dict, of which only the optional `"output"` key is relevant
(src/agent/agent.py lines 199-205). -/
def AgentInvoke : Type :=
  String → List Msg → Except String (Option String)

/-- The default text used when the response dict has no `"output"` key
(src/agent/agent.py line 205). -/
def apologyText : String := "I apologize, but I couldn't process that request."

/-- The body of the `try:` block of `CalendarAssistantChat.chat`
(src/agent/agent.py lines 191-210): build the last-5 context, invoke the
agent (which may raise), extract the output, append the pair, return the
output.  An exception propagates as `Except.error`. -/
def chatBody (agent : AgentInvoke) (st : ChatState) (user_input : String) :
    Except String (ChatState × String) := do
  let langchain_history := langchainHistory st.chat_history
  let response ← agent user_input langchain_history
  let output := response.getD apologyText
  pure ({ chat_history := st.chat_history ++ [(user_input, output)] }, output)

/-- `CalendarAssistantChat.chat` (src/agent/agent.py lines 187-214): the body
above with the `except Exception as e:` handler that returns
`f"❌ Error: {str(e)}"` and leaves the state unchanged. -/
def chat (agent : AgentInvoke) (st : ChatState) (user_input : String) :
    ChatState × String :=
  match chatBody agent st user_input with
  | .ok r => r
  | .error e => (st, "❌ Error: " ++ e)

/-- `CalendarAssistantChat.get_history` (src/agent/agent.py lines 222-224):
returns a copy of the stored history (same list value). -/
def get_history (st : ChatState) : List (String × String) :=
  st.chat_history

/-- `CalendarAssistantChat.reset` (src/agent/agent.py lines 216-220). -/
def reset (_st : ChatState) : ChatState :=
  { chat_history := [] }

/-- Recover the `(input, output)` pairs from an interleaved message list;
inverse of the interleaving done by `langchainHistory`. -/
def pairsOfMsgs : List Msg → List (String × String)
  | Msg.human a :: Msg.ai b :: rest => (a, b) :: pairsOfMsgs rest
  | _ => []

/-- An agent oracle that always raises, as when the LLM gateway is
unreachable. -/
def failingAgent : AgentInvoke :=
  fun _ _ => .error "LLM gateway unreachable"

/-- An agent oracle that always answers with the given output text. -/
def constAgent (out : String) : AgentInvoke :=
  fun _ _ => .ok (some out)

theorem pairsOfMsgs_interleave (l : List (String × String)) :
    pairsOfMsgs (l.flatMap (fun h => [Msg.human h.1, Msg.ai h.2])) = l := by
  induction l with
  | nil => rfl
  | cons h t ih => simp [List.flatMap, pairsOfMsgs] at ih ⊢ ; exact ih

theorem pairsOfMsgs_langchainHistory (hist : List (String × String)) :
    pairsOfMsgs (langchainHistory hist) = lastK 5 hist := by
  simp [langchainHistory, pairsOfMsgs_interleave]

theorem lastK_length (k : Nat) (l : List α) :
    (lastK k l).length = min k l.length := by
  show (l.drop (l.length - k)).length = min k l.length
  rw [List.length_drop]
  omega

theorem lastK_suffix (k : Nat) (l : List α) :
    l.take (l.length - k) ++ lastK k l = l := by
  simp [lastK]

theorem lastK_of_short (k : Nat) (l : List α) (h : l.length ≤ k) :
    lastK k l = l := by
  have hz : l.length - k = 0 := Nat.sub_eq_zero_of_le h
  simp [lastK, hz]

/-- C1: as stated the claim fails — `chat` also returns (without raising) on
the exception path, where it does NOT append the pair.  Concretely, with an
agent whose invocation raises, `chat` on an empty history returns the error
text while `get_history` stays `[]`, so its last element is not the
`(input, output)` pair. -/
theorem c1_counterexample :
    ¬ ((get_history (chat failingAgent { chat_history := [] } "hi").1).getLast?
        = some ("hi", (chat failingAgent { chat_history := [] } "hi").2)) := by
  simp [chat, chatBody, failingAgent, get_history]

/-- C1 (amended): when the agent invocation returns normally, `chat` appends
the `(input, output)` pair, `get_history` then ends in exactly that pair, and
the context assembled for the next `chat` call interleaves exactly the most
recent 5 stored pairs (a suffix of the history of length `min 5 len`, the
whole history when it has at most 5 pairs), in order. -/
theorem c1_chat_roundtrip_and_context (agent : AgentInvoke) (st : ChatState)
    (s : String) (resp : Option String)
    (h : agent s (langchainHistory st.chat_history) = .ok resp) :
    ((chat agent st s).1.chat_history
        = st.chat_history ++ [(s, (chat agent st s).2)])
    ∧ (get_history (chat agent st s).1).getLast? = some (s, (chat agent st s).2)
    ∧ pairsOfMsgs (langchainHistory (chat agent st s).1.chat_history)
        = lastK 5 (chat agent st s).1.chat_history
    ∧ ((chat agent st s).1.chat_history.take
          ((chat agent st s).1.chat_history.length - 5))
        ++ lastK 5 (chat agent st s).1.chat_history
        = (chat agent st s).1.chat_history
    ∧ (lastK 5 (chat agent st s).1.chat_history).length
        = min 5 (chat agent st s).1.chat_history.length
    ∧ ((chat agent st s).1.chat_history.length ≤ 5 →
        lastK 5 (chat agent st s).1.chat_history = (chat agent st s).1.chat_history) := by
  have hc : chat agent st s =
      ({ chat_history := st.chat_history ++ [(s, resp.getD apologyText)] },
        resp.getD apologyText) := by
    simp [chat, chatBody, h]
  refine ⟨?_, ?_, ?_, ?_, ?_, ?_⟩
  · rw [hc]
  · rw [hc]; simp [get_history]
  · exact pairsOfMsgs_langchainHistory _
  · exact lastK_suffix _ _
  · exact lastK_length _ _
  · exact lastK_of_short _ _

/-- Closed witness for the amended C1 at a concrete successful turn. -/
theorem c1_chat_roundtrip_and_context_witness :
    (get_history (chat (constAgent "done") { chat_history := [] } "hello").1).getLast?
      = some ("hello", (chat (constAgent "done") { chat_history := [] } "hello").2) :=
  (c1_chat_roundtrip_and_context (constAgent "done") { chat_history := [] }
    "hello" (some "done") rfl).2.1

/-- C2: any exception raised by the reasoning loop (the `agent.invoke` call,
e.g. the LLM gateway unreachable) is caught at the `chat` boundary and turned
into the textual output `"❌ Error: " ++ str(e)`; the state is unchanged, so
every subsequent turn behaves exactly as it would from the pre-failure
session (the session remains usable). -/
theorem c2_chat_catches_loop_exceptions (agent : AgentInvoke)
    (st : ChatState) (s e : String)
    (h : agent s (langchainHistory st.chat_history) = .error e) :
    chat agent st s = (st, "❌ Error: " ++ e)
    ∧ (∀ agent2 : AgentInvoke, ∀ s2 : String,
        chat agent2 (chat agent st s).1 s2 = chat agent2 st s2) := by
  have hc : chat agent st s = (st, "❌ Error: " ++ e) := by
    simp [chat, chatBody, h]
  exact ⟨hc, fun agent2 s2 => by rw [hc]⟩

/-- Closed witness for C2 at a concrete failing turn. -/
theorem c2_chat_catches_loop_exceptions_witness :
    chat failingAgent { chat_history := [("a", "b")] } "x"
      = ({ chat_history := [("a", "b")] }, "❌ Error: LLM gateway unreachable") :=
  (c2_chat_catches_loop_exceptions failingAgent { chat_history := [("a", "b")] }
    "x" "LLM gateway unreachable" rfl).1

/-- C9: when the agent invocation raises, `chat` leaves the stored history
unchanged: the failed turn's input and the returned error text are not
appended, the next turn's context is built from the same messages, and the
failed pair is absent from the history whenever it was absent before (so the
error text never enters the last-5 context of a later turn).  Together with
`c1_chat_roundtrip_and_context`, the pair is appended exactly on the
successful-invocation path. -/
theorem c9_failed_turn_not_recorded (agent : AgentInvoke) (st : ChatState)
    (s e : String)
    (h : agent s (langchainHistory st.chat_history) = .error e) :
    (chat agent st s).1 = st
    ∧ (chat agent st s).2 = "❌ Error: " ++ e
    ∧ langchainHistory (chat agent st s).1.chat_history
        = langchainHistory st.chat_history
    ∧ ((s, (chat agent st s).2) ∉ st.chat_history →
        (s, (chat agent st s).2) ∉ (chat agent st s).1.chat_history) := by
  have hc : chat agent st s = (st, "❌ Error: " ++ e) := by
    simp [chat, chatBody, h]
  refine ⟨by rw [hc], by rw [hc], by rw [hc], ?_⟩
  intro hnot
  rw [hc] at hnot ⊢
  exact hnot

/-- Closed witness for C9 at a concrete failing turn. -/
theorem c9_failed_turn_not_recorded_witness :
    (chat failingAgent { chat_history := [("a", "b")] } "x").1
      = { chat_history := [("a", "b")] } :=
  (c9_failed_turn_not_recorded failingAgent { chat_history := [("a", "b")] }
    "x" "LLM gateway unreachable" rfl).1

/-! ## Reasoning loop ceilings (src/agent/agent.py, create_calendar_agent) -/

/-- The `AgentExecutor` configuration knobs set by `create_calendar_agent`
(src/agent/agent.py lines 154-164). -/
structure AgentExecutorConfig where
  max_iterations : Nat
  max_execution_time : Nat

/-- The configuration `create_calendar_agent` passes to `AgentExecutor`:
`max_iterations=10`, `max_execution_time=90`,
`early_stopping_method="force"`, `handle_parsing_errors=True`. -/
def calendarAgentConfig : AgentExecutorConfig :=
  { max_iterations := 10, max_execution_time := 90 }

/-- One parsed model completion inside the loop: an action step naming a tool,
or a final answer. -/
inductive ModelStep where
  | action (tool : String) (input : String)
  | finalAnswer (text : String)

/-- The fixed best-effort string LangChain's executor returns when the
`"force"` early stopping method aborts the loop. -/
def forceStoppedAnswer : String :=
  "Agent stopped due to iteration limit or time limit."

/-- Modelled from the spec: the bounded iterative protocol of the reasoning
loop (`AgentExecutor.__call__` is LangChain library code, not part of src/;
spec section 4.2 states it).  `step i` is the parsed model completion at
iteration `i` (an oracle for the LLM plus parsing), `latency i` the
wall-clock cost of iteration `i` (the in-flight model call plus dispatch).
The loop runs while the iteration count is below `max_iterations`
(the `fuel` argument) and the elapsed time is below `max_execution_time`,
checking both at each iteration boundary; a final answer ends it normally
and budget exhaustion returns the `"force"` best-effort string instead of
raising.  Result: (answer, iterations used, elapsed time). -/
def runLoop (cfg : AgentExecutorConfig) (step : Nat → ModelStep)
    (latency : Nat → Nat) : Nat → Nat → Nat → String × Nat × Nat
  | 0, iters, elapsed => (forceStoppedAnswer, iters, elapsed)
  | fuel + 1, iters, elapsed =>
    if cfg.max_execution_time ≤ elapsed then (forceStoppedAnswer, iters, elapsed)
    else
      match step iters with
      | ModelStep.finalAnswer text => (text, iters + 1, elapsed + latency iters)
      | ModelStep.action _ _ =>
          runLoop cfg step latency fuel (iters + 1) (elapsed + latency iters)

/-- Modelled from the spec: one whole `run()` call of the reasoning loop,
starting with an empty scratchpad, zero iterations and zero elapsed time. -/
def agentRun (cfg : AgentExecutorConfig) (step : Nat → ModelStep)
    (latency : Nat → Nat) : String × Nat × Nat :=
  runLoop cfg step latency cfg.max_iterations 0 0

theorem runLoop_iters_le (cfg : AgentExecutorConfig) (step : Nat → ModelStep)
    (latency : Nat → Nat) :
    ∀ fuel iters elapsed,
      (runLoop cfg step latency fuel iters elapsed).2.1 ≤ iters + fuel := by
  intro fuel
  induction fuel with
  | zero => intro iters elapsed; simp [runLoop]
  | succ n ih =>
    intro iters elapsed
    simp only [runLoop]
    split
    · simp
    · cases hstep : step iters with
      | finalAnswer text =>
        show iters + 1 ≤ iters + (n + 1)
        omega
      | action t inp =>
        show (runLoop cfg step latency n (iters + 1) (elapsed + latency iters)).2.1
          ≤ iters + (n + 1)
        have := ih (iters + 1) (elapsed + latency iters)
        omega

theorem runLoop_elapsed_le (cfg : AgentExecutorConfig) (step : Nat → ModelStep)
    (latency : Nat → Nat) (L : Nat) (hL : ∀ i, latency i ≤ L) :
    ∀ fuel iters elapsed, elapsed ≤ cfg.max_execution_time + L →
      (runLoop cfg step latency fuel iters elapsed).2.2
        ≤ cfg.max_execution_time + L := by
  intro fuel
  induction fuel with
  | zero => intro iters elapsed h; simpa [runLoop] using h
  | succ n ih =>
    intro iters elapsed h
    simp only [runLoop]
    split
    · simpa using h
    · rename_i hlt
      have h2 : elapsed + latency iters ≤ cfg.max_execution_time + L := by
        have := hL iters
        omega
      cases hstep : step iters with
      | finalAnswer text => simpa using h2
      | action t inp => exact ih (iters + 1) (elapsed + latency iters) h2

theorem runLoop_answer (cfg : AgentExecutorConfig) (step : Nat → ModelStep)
    (latency : Nat → Nat) :
    ∀ fuel iters elapsed,
      (runLoop cfg step latency fuel iters elapsed).1 = forceStoppedAnswer
      ∨ ∃ i, step i
          = ModelStep.finalAnswer (runLoop cfg step latency fuel iters elapsed).1 := by
  intro fuel
  induction fuel with
  | zero => intro iters elapsed; left; rfl
  | succ n ih =>
    intro iters elapsed
    simp only [runLoop]
    split
    · left; rfl
    · cases hstep : step iters with
      | finalAnswer text => right; exact ⟨iters, by simp [hstep]⟩
      | action t inp => exact ih (iters + 1) (elapsed + latency iters)

/-- C3: under the ceilings `create_calendar_agent` configures
(`max_iterations=10`, `max_execution_time=90`), any single reasoning-loop run
performs at most 10 iterations, its wall-clock duration never exceeds 90
plus one in-flight call's latency (any per-iteration latency bound `L`), and
it always returns a string: either some iteration's final answer, or the
`"force"` best-effort stop string when a ceiling was hit — never a raised
failure. -/
theorem c3_loop_respects_ceilings (step : Nat → ModelStep)
    (latency : Nat → Nat) (L : Nat) (hL : ∀ i, latency i ≤ L) :
    (agentRun calendarAgentConfig step latency).2.1 ≤ 10
    ∧ (agentRun calendarAgentConfig step latency).2.2 ≤ 90 + L
    ∧ ((agentRun calendarAgentConfig step latency).1 = forceStoppedAnswer
       ∨ ∃ i, step i
           = ModelStep.finalAnswer (agentRun calendarAgentConfig step latency).1) := by
  refine ⟨?_, ?_, ?_⟩
  · simpa [calendarAgentConfig] using
      runLoop_iters_le calendarAgentConfig step latency 10 0 0
  · simpa [calendarAgentConfig] using
      runLoop_elapsed_le calendarAgentConfig step latency L hL 10 0 0 (by omega)
  · exact runLoop_answer calendarAgentConfig step latency 10 0 0

/-- An LLM oracle that always emits an action step, never a final answer. -/
def neverFinalStep (_i : Nat) : ModelStep :=
  ModelStep.action "list_upcoming_events" "10"

/-- A constant per-iteration latency of 7 time units. -/
def constLatency7 (_i : Nat) : Nat := 7

/-- Closed witness for C3: an agent that never produces a final answer, each
call taking 7 units of time; the run stops by budget with the best-effort
string. -/
theorem c3_loop_respects_ceilings_witness :
    (agentRun calendarAgentConfig neverFinalStep constLatency7).2.1 ≤ 10
    ∧ (agentRun calendarAgentConfig neverFinalStep constLatency7).2.2 ≤ 90 + 7
    ∧ ((agentRun calendarAgentConfig neverFinalStep constLatency7).1
          = forceStoppedAnswer
       ∨ ∃ i, neverFinalStep i
           = ModelStep.finalAnswer
               (agentRun calendarAgentConfig neverFinalStep constLatency7).1) :=
  c3_loop_respects_ceilings neverFinalStep constLatency7 7
    (fun _ => Nat.le_refl 7)

/-! ## JSON values and Python primitives (used by src/agent/tools.py) -/

/-- A JSON value as produced by `json.loads`. -/
inductive Json where
  | null
  | bool (b : Bool)
  | num (n : Int)
  | str (s : String)
  | arr (elems : List Json)
  | obj (fields : List (String × Json))
deriving Repr

/-- A Python exception as the tool layer sees it. -/
inductive PyErr where
  | jsonDecode
  | valueError (msg : String)
  | typeError (msg : String)
  | exc (msg : String)
deriving Repr

/-- `str(e)` of a caught exception, as interpolated into `f"❌ Error: {str(e)}"`. -/
def pyErrStr : PyErr → String
  | .jsonDecode => "Expecting value"
  | .valueError m => m
  | .typeError m => m
  | .exc m => m

/-- An exception raised by a Google API call: `googleapiclient.errors.HttpError`
with its response status and `error_details`, or any other exception with its
`str`. -/
inductive ApiErr where
  | httpError (status : Nat) (details : String)
  | exc (msg : String)
deriving Repr

/-- Python truthiness of a JSON-decoded value (`if summary:` etc.). -/
def pyTruthy : Json → Bool
  | .null => false
  | .bool b => b
  | .num n => n != 0
  | .str s => !s.isEmpty
  | .arr l => !l.isEmpty
  | .obj l => !l.isEmpty

/-- Python `str()` of a JSON-decoded value as interpolated into f-strings;
only the string case is exercised by the claims. -/
def pyStrOfJson : Json → String
  | .str s => s
  | .null => "None"
  | .bool true => "True"
  | .bool false => "False"
  | .num n => toString n
  | .arr _ => "<list>"
  | .obj _ => "<dict>"

/-- Python `str()` of an optional string value: `None` renders as `"None"`. -/
def optStr : Option String → String
  | some s => s
  | none => "None"

/-- Drop the characters satisfying `p` from both ends of a character list. -/
def stripCharsList (p : Char → Bool) (cs : List Char) : List Char :=
  ((cs.dropWhile p).reverse.dropWhile p).reverse

/-- Python `str.strip()` with no argument: remove surrounding whitespace. -/
def pyStrip (s : String) : String :=
  (stripCharsList Char.isWhitespace s.toList).asString

/-- Python `str.strip(c)` for a one-character set. -/
def pyStripChar (c : Char) (s : String) : String :=
  (stripCharsList (fun x => x == c) s.toList).asString

/-- The chain `s.strip().strip('"').strip("'")` used by the tool wrappers. -/
def stripQuotes (s : String) : String :=
  pyStripChar '\'' (pyStripChar '"' (pyStrip s))

/-- Whether `needle` occurs as a contiguous run inside `hay`. -/
def charsHasSub (hay needle : List Char) : Bool :=
  (List.range (hay.length + 1)).any (fun i => needle.isPrefixOf (hay.drop i))

/-- Whether `needle` occurs as a substring of `hay` (Python `needle in hay`). -/
def strHasSub (hay needle : String) : Bool :=
  charsHasSub hay.toList needle.toList

/-- Python `s.startswith(p)`. -/
def pyStartsWith (s p : String) : Bool :=
  p.toList.isPrefixOf s.toList

/-- Python `key in params` on a JSON-decoded value: key test for a dict,
membership for a list, substring test for a string, and a raised `TypeError`
for the non-container values. -/
def pyContainsKey : Json → String → Except PyErr Bool
  | Json.obj fields, key => .ok (fields.any (fun kv => kv.1 == key))
  | Json.arr elems, key =>
      .ok (elems.any (fun e => match e with | Json.str s => s == key | _ => false))
  | Json.str s, key => .ok (strHasSub s key)
  | _, _ => .error (.typeError "argument of type is not iterable")

/-- Python `params[key]`: lookup for a dict (`KeyError` when absent), a raised
`TypeError` for values not subscriptable by a string. -/
def pyGetItem : Json → String → Except PyErr Json
  | Json.obj fields, key =>
      match fields.lookup key with
      | some v => .ok v
      | none => .error (.exc "KeyError")
  | _, _ => .error (.typeError "indices must be integers")

/-- No two adjacent underscores. -/
def underscoresApart : List Char → Bool
  | '_' :: '_' :: _ => false
  | _ :: rest => underscoresApart rest
  | [] => true

/-- Decimal value of a digit list. -/
def digitsToNat (cs : List Char) : Nat :=
  cs.foldl (fun a c => 10 * a + (c.toNat - 48)) 0

/-- The unsigned body accepted by Python `int()`: nonempty, only digits and
underscores, an underscore neither first, last nor doubled. -/
def pyIntCore (cs : List Char) : Option Nat :=
  if cs.isEmpty then none
  else if !(cs.all fun c => c.isDigit || c == '_') then none
  else if cs.head? == some '_' || cs.getLast? == some '_' then none
  else if !underscoresApart cs then none
  else some (digitsToNat (cs.filter Char.isDigit))

/-- Python `int(s)` on a decimal string: surrounding whitespace allowed, an
optional sign, then digits with optional single underscores between them;
`none` models the raised `ValueError`. -/
def pyInt (s : String) : Option Int :=
  match (pyStrip s).toList with
  | '+' :: rest => (pyIntCore rest).map (fun n => (n : Int))
  | '-' :: rest => (pyIntCore rest).map (fun n => -(n : Int))
  | cs => (pyIntCore cs).map (fun n => (n : Int))

/-- `DEFAULT_CALENDAR_ID` (src/calendar_tools/calendar_operations.py line 16). -/
def DEFAULT_CALENDAR_ID : String := "primary"

/-- `DEFAULT_TIMEZONE` (src/calendar_tools/calendar_operations.py line 18). -/
def DEFAULT_TIMEZONE : String := "Asia/Beirut"

/-- The `start`/`end` sub-dict of a Google Calendar API event: an optional
`dateTime` and an optional all-day `date`. -/
structure ApiEventTime where
  dateTime : Option String
  date : Option String
deriving Repr

/-- `d.get('dateTime', d.get('date'))` as used throughout
src/calendar_tools/calendar_operations.py. -/
def ApiEventTime.dateTimeOrDate (t : ApiEventTime) : Option String :=
  match t.dateTime with
  | some s => some s
  | none => t.date

/-- A Google Calendar API event as the backend functions read it
(`start`/`end` are the `startTime`/`endTime` fields here). -/
structure ApiEvent where
  id : Option String
  summary : Option String
  startTime : ApiEventTime
  endTime : ApiEventTime
  htmlLink : Option String
  location : Option String
  description : Option String
deriving Repr

/-! ## Calendar backend operations (src/calendar_tools/calendar_operations.py) -/

/-- The result dict of `delete_event`. -/
structure DeleteResult where
  success : Bool
  event_id : String
  message : Option String := none
  error : Option String := none
deriving Repr

/-- `delete_event` (src/calendar_tools/calendar_operations.py lines 149-208):
`svcDelete` is the oracle for `service.events().delete(calendarId=...,
eventId=...).execute()`; the function's own `try/except` turns every raised
exception into a failure dict, the 404 status specially. -/
def delete_event (svcDelete : String → String → Except ApiErr Unit)
    (event_id : String) (calendar_id : String) : DeleteResult :=
  match svcDelete calendar_id event_id with
  | .ok _ =>
      { success := true, event_id := event_id
        message := some ("✓ Event '" ++ event_id ++ "' deleted successfully") }
  | .error (.httpError 404 _) =>
      { success := false, event_id := event_id
        error := some ("Event '" ++ event_id ++ "' not found") }
  | .error (.httpError status det) =>
      { success := false, event_id := event_id
        error := some ("HTTP error: " ++ toString status ++ " - " ++ det) }
  | .error (.exc m) =>
      { success := false, event_id := event_id, error := some m }

/-- The event body `create_event` sends to the API (both datetimes tagged with
`DEFAULT_TIMEZONE`); optional entries are present only for truthy arguments. -/
structure EventBody where
  summary : Json
  start_dateTime : Json
  end_dateTime : Json
  timeZone : String
  description : Option Json
  location : Option Json
  attendees : Option Json
  sendUpdates : String
deriving Repr

/-- The result dict of `create_event`; on failure `summary` echoes the input
argument (rendered by `str()` here). -/
structure CreateResult where
  success : Bool
  event_id : Option String := none
  summary : Option String := none
  start : Option String := none
  endTime : Option String := none
  link : Option String := none
  message : Option String := none
  error : Option String := none
deriving Repr

/-- `create_event` (src/calendar_tools/calendar_operations.py lines 21-87):
`svcInsert` is the oracle for `service.events().insert(calendarId=...,
body=..., sendUpdates=...).execute()`.  Arguments are JSON-decoded values as
Python receives them. -/
def create_event (svcInsert : Json → EventBody → Except ApiErr ApiEvent)
    (summary start_datetime end_datetime : Json)
    (description location attendees : Json) (calendar_id : Json) : CreateResult :=
  let event_body : EventBody :=
    { summary := summary
      start_dateTime := start_datetime
      end_dateTime := end_datetime
      timeZone := DEFAULT_TIMEZONE
      description := if pyTruthy description then some description else none
      location := if pyTruthy location then some location else none
      attendees := if pyTruthy attendees then some attendees else none
      sendUpdates := if pyTruthy attendees then "all" else "none" }
  match svcInsert calendar_id event_body with
  | .ok event =>
      { success := true
        event_id := event.id
        summary := event.summary
        start := event.startTime.dateTimeOrDate
        endTime := event.endTime.dateTimeOrDate
        link := event.htmlLink
        message := some ("✓ Event '" ++ pyStrOfJson summary ++ "' created successfully") }
  | .error (.httpError status det) =>
      { success := false
        error := some ("HTTP error: " ++ toString status ++ " - " ++ det)
        summary := some (pyStrOfJson summary) }
  | .error (.exc m) =>
      { success := false, error := some m, summary := some (pyStrOfJson summary) }

/-- The patch body `update_event` sends to the API: only the truthy arguments
are present (datetimes are tagged with `DEFAULT_TIMEZONE` in the source). -/
structure PatchBody where
  summary : Option Json
  start_dateTime : Option Json
  end_dateTime : Option Json
  description : Option Json
  location : Option Json
deriving Repr

/-- The `update_event(...)` keyword arguments after `**params` binding. -/
structure UpdateEventArgs where
  event_id : Json
  summary : Json
  start_datetime : Json
  end_datetime : Json
  description : Json
  location : Json
  calendar_id : Json
deriving Repr

/-- The result dict of `update_event`. -/
structure UpdateResult where
  success : Bool
  event_id : Option String := none
  summary : Option String := none
  start : Option String := none
  endTime : Option String := none
  message : Option String := none
  error : Option String := none
deriving Repr

/-- `update_event` (src/calendar_tools/calendar_operations.py lines 90-146):
`svcPatch` is the oracle for `service.events().patch(calendarId=...,
eventId=..., body=...).execute()`. -/
def update_event (svcPatch : Json → Json → PatchBody → Except ApiErr ApiEvent)
    (a : UpdateEventArgs) : UpdateResult :=
  let patch_body : PatchBody :=
    { summary := if pyTruthy a.summary then some a.summary else none
      start_dateTime := if pyTruthy a.start_datetime then some a.start_datetime else none
      end_dateTime := if pyTruthy a.end_datetime then some a.end_datetime else none
      description := if pyTruthy a.description then some a.description else none
      location := if pyTruthy a.location then some a.location else none }
  match svcPatch a.calendar_id a.event_id patch_body with
  | .ok updated_event =>
      { success := true
        event_id := updated_event.id
        summary := updated_event.summary
        start := updated_event.startTime.dateTimeOrDate
        endTime := updated_event.endTime.dateTimeOrDate
        message := some ("✓ Event '" ++ pyStrOfJson a.event_id ++ "' updated successfully") }
  | .error (.httpError status det) =>
      { success := false
        error := some ("HTTP error: " ++ toString status ++ " - " ++ det) }
  | .error (.exc m) => { success := false, error := some m }

/-- A naive (timezone-free) wall-clock datetime, as parsed by
`datetime.fromisoformat` / `datetime.strptime`. -/
structure NaiveDT where
  year : Nat
  month : Nat
  day : Nat
  hour : Nat
  minute : Nat
  second : Nat
deriving DecidableEq, Repr

/-- Two-digit zero padding. -/
def pad2 (n : Nat) : String :=
  if n < 10 then "0" ++ toString n else toString n

/-- Four-digit zero padding (for years). -/
def pad4 (n : Nat) : String :=
  if n < 10 then "000" ++ toString n
  else if n < 100 then "00" ++ toString n
  else if n < 1000 then "0" ++ toString n
  else toString n

/-- `datetime.isoformat()` of a naive datetime with zero microseconds:
`YYYY-MM-DDTHH:MM:SS`. -/
def NaiveDT.iso (t : NaiveDT) : String :=
  pad4 t.year ++ "-" ++ pad2 t.month ++ "-" ++ pad2 t.day ++ "T"
    ++ pad2 t.hour ++ ":" ++ pad2 t.minute ++ ":" ++ pad2 t.second

/-- The `±HH:MM` suffix `isoformat()` prints for a UTC offset of
`offsetMinutes` minutes. -/
def offsetIso (offsetMinutes : Int) : String :=
  if offsetMinutes < 0 then
    "-" ++ pad2 (offsetMinutes.natAbs / 60) ++ ":" ++ pad2 (offsetMinutes.natAbs % 60)
  else
    "+" ++ pad2 (offsetMinutes.natAbs / 60) ++ ":" ++ pad2 (offsetMinutes.natAbs % 60)

/-- `datetime.isoformat()` of an aware datetime: the naive ISO text followed
by the UTC-offset suffix. -/
def awareIso (t : NaiveDT) (offsetMinutes : Int) : String :=
  t.iso ++ offsetIso offsetMinutes

/-- The oracle for `datetime.fromisoformat`: the parsed wall time and the
explicit UTC offset when the string carries one (`none` for a naive string);
`Except.error` models the raised `ValueError`. -/
def FromIso : Type :=
  String → Except PyErr (NaiveDT × Option Int)

/-- The oracle for `pytz.timezone(DEFAULT_TIMEZONE).localize`: the UTC offset
in minutes that pytz attaches to the given Asia/Beirut wall time (+120 in
winter, +180 under daylight saving). -/
def TzLocalize : Type := NaiveDT → Int

/-- Python `c in s` membership of a character in a string. -/
def strHasChar (s : String) (c : Char) : Bool :=
  s.toList.any (fun x => x == c)

/-- The inner helper `localize_if_needed` of `check_availability`
(src/calendar_tools/calendar_operations.py lines 240-247): a string containing
'Z' or '+' passes through unchanged; otherwise the string is parsed, a naive
result is localized to the default time zone, and the datetime is
re-serialized with `isoformat()`. -/
def localize_if_needed (fromiso : FromIso) (tzLocalize : TzLocalize)
    (dt_str : String) : Except PyErr String :=
  if strHasChar dt_str 'Z' || strHasChar dt_str '+' then .ok dt_str
  else
    match fromiso dt_str with
    | .error e => .error e
    | .ok (dt, none) => .ok (awareIso dt (tzLocalize dt))
    | .ok (dt, some off) => .ok (awareIso dt off)

/-- One entry of the `conflicting_events` list of `check_availability`. -/
structure ConflictEvent where
  id : Option String
  summary : String
  start : Option String
  endTime : Option String
deriving Repr

/-- The result dict of `check_availability`. -/
structure AvailResult where
  success : Bool
  available : Option Bool := none
  start : Option String := none
  endTime : Option String := none
  conflicting_events : List ConflictEvent := []
  message : Option String := none
  error : Option String := none
deriving Repr

/-- The oracle for `service.events().list(calendarId=..., timeMin=...,
timeMax=..., singleEvents=True, orderBy='startTime').execute()`, keyed by
(calendarId, timeMin, timeMax). -/
def SvcRange : Type :=
  String → String → String → Except ApiErr (List ApiEvent)

/-- The query-and-format tail of `check_availability`
(src/calendar_tools/calendar_operations.py lines 252-289), reached once both
datetimes are localized: list the events in the range and build the result
dict. -/
def availability_query (svcRange : SvcRange)
    (calendar_id start_datetime end_datetime : String) : AvailResult :=
  match svcRange calendar_id start_datetime end_datetime with
  | .ok events =>
    if events.isEmpty then
      { success := true, available := some true
        start := some start_datetime, endTime := some end_datetime
        message := some "✓ Time slot is available" }
    else
      let conflicts : List ConflictEvent := events.map (fun event =>
        { id := event.id
          summary := event.summary.getD "Untitled Event"
          start := event.startTime.dateTimeOrDate
          endTime := event.endTime.dateTimeOrDate })
      { success := true, available := some false
        start := some start_datetime, endTime := some end_datetime
        conflicting_events := conflicts
        message := some ("⚠ Time slot has " ++ toString conflicts.length
          ++ " conflicting event(s)") }
  | .error (.httpError status det) =>
      { success := false
        error := some ("HTTP error: " ++ toString status ++ " - " ++ det)
        start := some start_datetime, endTime := some end_datetime }
  | .error (.exc m) =>
      { success := false, error := some m
        start := some start_datetime, endTime := some end_datetime }

/-- `check_availability` (src/calendar_tools/calendar_operations.py lines
211-304): localize both datetime strings, then query; an exception raised by
localization is caught by the function's own `except`, with the variables
still holding whatever they held at the raise (the first string is already
localized when the second one fails). -/
def check_availability (fromiso : FromIso) (tzLocalize : TzLocalize)
    (svcRange : SvcRange)
    (start_datetime end_datetime calendar_id : String) : AvailResult :=
  match localize_if_needed fromiso tzLocalize start_datetime with
  | .error e =>
      { success := false, error := some (pyErrStr e)
        start := some start_datetime, endTime := some end_datetime }
  | .ok start2 =>
    match localize_if_needed fromiso tzLocalize end_datetime with
    | .error e =>
        { success := false, error := some (pyErrStr e)
          start := some start2, endTime := some end_datetime }
    | .ok end2 => availability_query svcRange calendar_id start2 end2

/-- One formatted event of `get_daily_report`. -/
structure ReportEvent where
  id : Option String
  summary : String
  start : Option String
  endTime : Option String
  location : Option String
  description : Option String
  link : Option String
deriving Repr

/-- The result dict of `get_daily_report`. -/
structure ReportResult where
  success : Bool
  date : Option String := none
  event_count : Option Nat := none
  events : List ReportEvent := []
  summary : Option String := none
  error : Option String := none
deriving Repr

/-- The summary sentence of `get_daily_report`
(src/calendar_tools/calendar_operations.py lines 392-398). -/
def dailySummary (n : Nat) (date : String) : String :=
  if n = 0 then "No events scheduled for " ++ date
  else if n = 1 then "You have 1 event scheduled for " ++ date
  else "You have " ++ toString n ++ " events scheduled for " ++ date

/-- `get_daily_report` (src/calendar_tools/calendar_operations.py lines
306-419).  `today` is the oracle for `datetime.now().strftime('%Y-%m-%d')`,
`strptime` the one for `datetime.strptime(f"{date} HH:MM:SS", ...)` keyed by
its first argument (raising `ValueError` on a malformed date), `tzLocalize`
and `svcRange` as above. -/
def get_daily_report (today : String) (strptime : String → Except PyErr NaiveDT)
    (tzLocalize : TzLocalize) (svcRange : SvcRange)
    (date : Option String) (calendar_id : String) : ReportResult :=
  let date1 := date.getD today
  let date2 := stripQuotes date1
  match strptime (date2 ++ " 00:00:00") with
  | .error e => { success := false, date := some date2, error := some (pyErrStr e) }
  | .ok start_raw =>
    match strptime (date2 ++ " 23:59:59") with
    | .error e => { success := false, date := some date2, error := some (pyErrStr e) }
    | .ok end_raw =>
      let start_of_day := awareIso start_raw (tzLocalize start_raw)
      let end_of_day := awareIso end_raw (tzLocalize end_raw)
      match svcRange calendar_id start_of_day end_of_day with
      | .ok events =>
          { success := true
            date := some date2
            event_count := some events.length
            events := events.map (fun event =>
              { id := event.id
                summary := event.summary.getD "Untitled Event"
                start := event.startTime.dateTimeOrDate
                endTime := event.endTime.dateTimeOrDate
                location := event.location
                description := event.description
                link := event.htmlLink })
            summary := some (dailySummary events.length date2) }
      | .error (.httpError status det) =>
          { success := false, date := some date2
            error := some ("HTTP error: " ++ toString status ++ " - " ++ det) }
      | .error (.exc m) =>
          { success := false, date := some date2, error := some m }

/-- One formatted event of `list_upcoming_events`. -/
structure UpEvent where
  id : Option String
  summary : String
  start : Option String
  endTime : Option String
  location : Option String
  link : Option String
deriving Repr

/-- The result dict of `list_upcoming_events`. -/
structure UpResult where
  success : Bool
  event_count : Option Nat := none
  events : List UpEvent := []
  message : Option String := none
  error : Option String := none
deriving Repr

/-- The oracle for `service.events().list(calendarId=..., timeMin=now,
maxResults=..., singleEvents=True, orderBy='startTime').execute()`, keyed by
(calendarId, timeMin, maxResults). -/
def SvcUpcoming : Type :=
  String → String → Int → Except ApiErr (List ApiEvent)

/-- `list_upcoming_events` (src/calendar_tools/calendar_operations.py lines
422-494).  `nowIso` is the oracle for `datetime.utcnow().isoformat() + 'Z'`. -/
def list_upcoming_events (nowIso : String) (svcUp : SvcUpcoming)
    (max_results : Int) (calendar_id : String) : UpResult :=
  match svcUp calendar_id nowIso max_results with
  | .ok events =>
      { success := true
        event_count := some events.length
        events := events.map (fun event =>
          { id := event.id
            summary := event.summary.getD "Untitled Event"
            start := event.startTime.dateTimeOrDate
            endTime := event.endTime.dateTimeOrDate
            location := event.location
            link := event.htmlLink })
        message := some ("Found " ++ toString events.length ++ " upcoming event(s)") }
  | .error (.httpError status det) =>
      { success := false
        error := some ("HTTP error: " ++ toString status ++ " - " ++ det) }
  | .error (.exc m) => { success := false, error := some m }

/-! ## Tool wrappers (src/agent/tools.py) -/

/-- `format_create_event_result` (src/agent/tools.py lines 24-38). -/
def format_create_event_result (result : CreateResult) : String :=
  if !result.success then
    "❌ Failed to create event: " ++ result.error.getD "Unknown error"
  else
    "✅ Event created successfully!\n"
      ++ "📅 " ++ optStr result.summary ++ "\n"
      ++ "🕐 Start: " ++ optStr result.start ++ "\n"
      ++ "🕑 End: " ++ optStr result.endTime ++ "\n"
      ++ "🔗 Link: " ++ optStr result.link ++ "\n"
      ++ "🆔 Event ID: " ++ optStr result.event_id ++ "\n\n"
      ++ "Event ID: " ++ optStr result.event_id ++ "\n"
      ++ "Link: " ++ optStr result.link

/-- `format_delete_event_result` (src/agent/tools.py lines 41-46). -/
def format_delete_event_result (result : DeleteResult) : String :=
  if !result.success then
    "❌ Failed to delete event: " ++ result.error.getD "Unknown error"
  else
    "✅ " ++ optStr result.message

/-- `format_availability_result` (src/agent/tools.py lines 49-64). -/
def format_availability_result (result : AvailResult) : String :=
  if !result.success then
    "❌ Error checking availability: " ++ result.error.getD "Unknown error"
  else if result.available.getD false then
    "✅ Time slot is AVAILABLE (" ++ optStr result.start ++ " to "
      ++ optStr result.endTime ++ ")"
  else
    let header := "⚠️ Time slot is NOT AVAILABLE (" ++ optStr result.start
      ++ " to " ++ optStr result.endTime ++ ")"
    let countLine := "Found " ++ toString result.conflicting_events.length
      ++ " conflicting event(s):"
    let eventLines := result.conflicting_events.map (fun event =>
      "  • " ++ event.summary ++ " (" ++ optStr event.start ++ " - "
        ++ optStr event.endTime ++ ")")
    String.intercalate "\n" (header :: countLine :: eventLines)

/-- The lines the daily-report formatter emits for one enumerated event
(`i` is zero-based here; Python's `enumerate(events, 1)` starts at 1). -/
def reportEventLines (i : Nat) (event : ReportEvent) : List String :=
  ["\n" ++ toString (i + 1) ++ ". " ++ event.summary,
   "   Time: " ++ optStr event.start ++ " - " ++ optStr event.endTime]
  ++ (match event.location with
      | some l => if l.isEmpty then [] else ["   Location: " ++ l]
      | none => [])
  ++ (match event.description with
      | some d => if d.isEmpty then [] else
          ["   Description: " ++ (d.toList.take 100).asString ++ "..."]
      | none => [])
  ++ (match event.link with
      | some l => if l.isEmpty then [] else ["   Link: " ++ l]
      | none => [])

/-- `format_daily_report_result` (src/agent/tools.py lines 67-88). -/
def format_daily_report_result (result : ReportResult) : String :=
  if !result.success then
    "❌ Error generating report: " ++ result.error.getD "Unknown error"
  else
    let base := ["📅 Daily Report for " ++ optStr result.date,
                 optStr result.summary]
    let lines :=
      if result.events.isEmpty then base
      else base ++ ["\nEvents:"]
        ++ result.events.enum.flatMap (fun p => reportEventLines p.1 p.2)
    String.intercalate "\n" lines

/-- The lines the upcoming-events formatter emits for one enumerated event. -/
def upEventLines (i : Nat) (event : UpEvent) : List String :=
  ["\n" ++ toString (i + 1) ++ ". " ++ event.summary,
   "   Time: " ++ optStr event.start ++ " - " ++ optStr event.endTime]
  ++ (match event.location with
      | some l => if l.isEmpty then [] else ["   Location: " ++ l]
      | none => [])
  ++ (match event.link with
      | some l => if l.isEmpty then [] else ["   Link: " ++ l]
      | none => [])
  ++ ["   ID: " ++ optStr event.id]

/-- `format_upcoming_events_result` (src/agent/tools.py lines 91-111). -/
def format_upcoming_events_result (result : UpResult) : String :=
  if !result.success then
    "❌ Error listing events: " ++ result.error.getD "Unknown error"
  else if result.events.isEmpty then
    "📅 No upcoming events found."
  else
    let header := "📅 Upcoming Events (" ++ toString (result.event_count.getD 0)
      ++ " total):"
    String.intercalate "\n"
      (header :: result.events.enum.flatMap (fun p => upEventLines p.1 p.2))

/-- The parameter names of `create_event` reachable through `**params`. -/
def createAllowedKeys : List String :=
  ["summary", "start_datetime", "end_datetime", "description", "location",
   "attendees", "calendar_id"]

/-- The parameters of `create_event` with no default value. -/
def createRequiredKeys : List String :=
  ["summary", "start_datetime", "end_datetime"]

/-- Python keyword binding `create_event(**params)`: `params` must be a dict
whose keys all name parameters, with every defaultless parameter present;
otherwise a `TypeError` is raised at the call site. -/
def bindCreateArgs : Json → Except PyErr (Json × Json × Json × Json × Json × Json × Json)
  | Json.obj fields =>
    if !(fields.all fun kv => createAllowedKeys.contains kv.1) then
      .error (.typeError "create_event() got an unexpected keyword argument")
    else if !(createRequiredKeys.all fun k => fields.any fun kv => kv.1 == k) then
      .error (.typeError "create_event() missing a required positional argument")
    else
      .ok ((fields.lookup "summary").getD Json.null,
           (fields.lookup "start_datetime").getD Json.null,
           (fields.lookup "end_datetime").getD Json.null,
           (fields.lookup "description").getD Json.null,
           (fields.lookup "location").getD Json.null,
           (fields.lookup "attendees").getD Json.null,
           (fields.lookup "calendar_id").getD (Json.str DEFAULT_CALENDAR_ID))
  | _ => .error (.typeError "argument after ** must be a mapping")

/-- `create_event_tool` (src/agent/tools.py lines 116-129): each Python
`return` is an `Except.ok`; an `Except.error` would be an exception escaping
the wrapper (the theorem for C4 shows none does). -/
def create_event_tool (jsonLoads : String → Except Unit Json)
    (svcInsert : Json → EventBody → Except ApiErr ApiEvent)
    (tool_input : String) : Except PyErr String :=
  match jsonLoads tool_input with
  | .error _ =>
      .ok "❌ Invalid input format. Please provide valid JSON with event details."
  | .ok params =>
    match bindCreateArgs params with
    | .error e => .ok ("❌ Error: " ++ pyErrStr e)
    | .ok (summary, start_datetime, end_datetime, description, location,
           attendees, calendar_id) =>
        .ok (format_create_event_result
          (create_event svcInsert summary start_datetime end_datetime
            description location attendees calendar_id))

/-- `delete_event_tool` (src/agent/tools.py lines 132-152).  The input is
stripped; a braced input is parsed leniently: its `event_id` key, else its
`id` key, names the event, and on a JSON parse error the raw stripped text is
used (the inner `try` catches only `json.JSONDecodeError`, so a `TypeError`
from `'event_id' in params` on a non-container value would escape — something
`json.loads` never produces for a brace-led string). -/
def delete_event_tool (jsonLoads : String → Except Unit Json)
    (svcDelete : String → String → Except ApiErr Unit)
    (tool_input : String) : Except PyErr String := do
  let stripped := pyStrip tool_input
  let event_id ←
    if pyStartsWith stripped "\x7b" then
      match jsonLoads stripped with
      | .error _ => pure stripped
      | .ok params => do
        let hasEventId ← pyContainsKey params "event_id"
        if hasEventId then
          let v ← pyGetItem params "event_id"
          pure (pyStrOfJson v)
        else
          let hasId ← pyContainsKey params "id"
          if hasId then
            let v ← pyGetItem params "id"
            pure (pyStrOfJson v)
          else
            pure stripped
    else
      pure stripped
  pure (format_delete_event_result
    (delete_event svcDelete event_id DEFAULT_CALENDAR_ID))

/-- The parameter names of `check_availability` reachable through `**params`. -/
def availAllowedKeys : List String :=
  ["start_datetime", "end_datetime", "calendar_id"]

/-- Python keyword binding `check_availability(**params)`. -/
def bindAvailArgs : Json → Except PyErr (Json × Json × Json)
  | Json.obj fields =>
    if !(fields.all fun kv => availAllowedKeys.contains kv.1) then
      .error (.typeError "check_availability() got an unexpected keyword argument")
    else if !(["start_datetime", "end_datetime"].all fun k =>
        fields.any fun kv => kv.1 == k) then
      .error (.typeError "check_availability() missing a required positional argument")
    else
      .ok ((fields.lookup "start_datetime").getD Json.null,
           (fields.lookup "end_datetime").getD Json.null,
           (fields.lookup "calendar_id").getD (Json.str DEFAULT_CALENDAR_ID))
  | _ => .error (.typeError "argument after ** must be a mapping")

/-- `check_availability_tool` (src/agent/tools.py lines 155-168).  When a
bound datetime value is not a string, `'Z' in dt_str` inside
`check_availability` raises a `TypeError` which that function's own `except`
turns into a failure dict (rendered here directly in that branch). -/
def check_availability_tool (jsonLoads : String → Except Unit Json)
    (fromiso : FromIso) (tzLocalize : TzLocalize) (svcRange : SvcRange)
    (tool_input : String) : Except PyErr String :=
  match jsonLoads tool_input with
  | .error _ =>
      .ok "❌ Invalid input format. Please provide valid JSON with start_datetime and end_datetime."
  | .ok params =>
    match bindAvailArgs params with
    | .error e => .ok ("❌ Error: " ++ pyErrStr e)
    | .ok (start_datetime, end_datetime, calendar_id) =>
      match start_datetime, end_datetime with
      | Json.str s0, Json.str e0 =>
          .ok (format_availability_result
            (check_availability fromiso tzLocalize svcRange s0 e0
              (pyStrOfJson calendar_id)))
      | _, _ =>
          .ok (format_availability_result
            { success := false
              error := some "argument of type is not iterable"
              start := some (pyStrOfJson start_datetime)
              endTime := some (pyStrOfJson end_datetime) })

/-- `daily_report_tool` (src/agent/tools.py lines 171-175): quote-strip the
date (empty input means "today") and format the report; `get_daily_report`
catches its own exceptions, so this wrapper needs no handler. -/
def daily_report_tool (today : String) (strptime : String → Except PyErr NaiveDT)
    (tzLocalize : TzLocalize) (svcRange : SvcRange)
    (date : String) : Except PyErr String :=
  let clean_date := if date.isEmpty then none else some (stripQuotes date)
  .ok (format_daily_report_result
    (get_daily_report today strptime tzLocalize svcRange clean_date
      DEFAULT_CALENDAR_ID))

/-- `upcoming_events_tool` (src/agent/tools.py lines 178-189): strip quotes
and whitespace, default to 10 on an empty string, parse with Python `int`
(a `ValueError` is caught and reported as the fixed error text), and list. -/
def upcoming_events_tool (nowIso : String) (svcUp : SvcUpcoming)
    (max_results : String) : Except PyErr String :=
  let clean_input := stripQuotes max_results
  if clean_input.isEmpty then
    .ok (format_upcoming_events_result
      (list_upcoming_events nowIso svcUp 10 DEFAULT_CALENDAR_ID))
  else
    match pyInt clean_input with
    | none => .ok "❌ max_results must be a number (integer)"
    | some max_count =>
        .ok (format_upcoming_events_result
          (list_upcoming_events nowIso svcUp max_count DEFAULT_CALENDAR_ID))

/-- The parameter names of `update_event` reachable through `**params`. -/
def updateAllowedKeys : List String :=
  ["event_id", "summary", "start_datetime", "end_datetime", "description",
   "location", "calendar_id"]

/-- Python keyword binding `update_event(**params)`. -/
def bindUpdateEventArgs : Json → Except PyErr UpdateEventArgs
  | Json.obj fields =>
    if !(fields.all fun kv => updateAllowedKeys.contains kv.1) then
      .error (.typeError "update_event() got an unexpected keyword argument")
    else
      match fields.lookup "event_id" with
      | some v =>
          .ok { event_id := v
                summary := (fields.lookup "summary").getD Json.null
                start_datetime := (fields.lookup "start_datetime").getD Json.null
                end_datetime := (fields.lookup "end_datetime").getD Json.null
                description := (fields.lookup "description").getD Json.null
                location := (fields.lookup "location").getD Json.null
                calendar_id := (fields.lookup "calendar_id").getD
                  (Json.str DEFAULT_CALENDAR_ID) }
      | none =>
          .error (.typeError "update_event() missing a required positional argument")
  | _ => .error (.typeError "argument after ** must be a mapping")

/-- The success/failure observation `update_event_tool` builds from the
`update_event` result dict (src/agent/tools.py lines 203-205). -/
def updateObservation (result : UpdateResult) : String :=
  if !result.success then
    "❌ Failed to update event: " ++ result.error.getD "Unknown error"
  else
    "✅ Event updated successfully!\n📅 " ++ optStr result.summary
      ++ "\n🕐 Start: " ++ optStr result.start
      ++ "\n🕑 End: " ++ optStr result.endTime

/-- `update_event_tool` (src/agent/tools.py lines 192-209): reject inputs
without an `event_id` before any backend call, then patch and report. -/
def update_event_tool (jsonLoads : String → Except Unit Json)
    (svcPatch : Json → Json → PatchBody → Except ApiErr ApiEvent)
    (tool_input : String) : Except PyErr String :=
  match jsonLoads tool_input with
  | .error _ => .ok "❌ Invalid input format. Please provide valid JSON."
  | .ok params =>
    match pyContainsKey params "event_id" with
    | .error e => .ok ("❌ Error: " ++ pyErrStr e)
    | .ok hasKey =>
      if !hasKey then .ok "❌ Missing required field: 'event_id'"
      else
        match bindUpdateEventArgs params with
        | .error e => .ok ("❌ Error: " ++ pyErrStr e)
        | .ok args => .ok (updateObservation (update_event svcPatch args))

/-! ## Helper lemmas and per-claim oracles -/

theorem strToList_append (a b : String) :
    (a ++ b).toList = a.toList ++ b.toList := by
  cases a; cases b; rfl

theorem isPrefixOf_self_chars (l : List Char) : l.isPrefixOf l = true := by
  induction l with
  | nil => rfl
  | cons a t ih => simp [List.isPrefixOf, ih]

theorem charsHasSub_suffix (xs ys : List Char) :
    charsHasSub (xs ++ ys) ys = true := by
  unfold charsHasSub
  rw [List.any_eq_true]
  refine ⟨xs.length, ?_, ?_⟩
  · rw [List.mem_range, List.length_append]; omega
  · rw [List.drop_left]
    exact isPrefixOf_self_chars ys

theorem strHasSub_suffix (a n : String) : strHasSub (a ++ n) n = true := by
  unfold strHasSub
  rw [strToList_append]
  exact charsHasSub_suffix _ _

theorem lookup_some_any (fields : List (String × Json)) (k : String) (v : Json)
    (h : fields.lookup k = some v) :
    (fields.any fun kv => kv.1 == k) = true := by
  induction fields with
  | nil => simp [List.lookup] at h
  | cons kv t ih =>
    rw [List.lookup] at h
    rw [List.any_cons]
    have hsym : (kv.1 == k) = (k == kv.1) := by
      by_cases he : kv.1 = k
      · subst he; rfl
      · rw [beq_eq_false_iff_ne.mpr he, beq_eq_false_iff_ne.mpr (Ne.symm he)]
    cases hk : (k == kv.1) with
    | true => rw [hsym, hk, Bool.true_or]
    | false =>
      simp only [hk] at h
      rw [hsym, hk, Bool.false_or]
      exact ih h

/-- A `delete` service oracle answering 404 for every event. -/
def svc404 : String → String → Except ApiErr Unit :=
  fun _ _ => .error (.httpError 404 "notFound")

/-- A `delete` service oracle that always succeeds. -/
def svcDeleteOk : String → String → Except ApiErr Unit :=
  fun _ _ => .ok ()

/-- C6: a deletion the backend answers with HTTP 404 yields a
`success=False` result whose error text is `Event '<id>' not found`
(containing `"not found"`), surfaced by the formatter as a
`❌ Failed to delete event: ...` observation; a successful deletion yields
`success=True` with the confirmation message.  Both paths are plain returns
of `delete_event` — nothing is raised. -/
theorem c6_delete_event_404 (svcDelete : String → String → Except ApiErr Unit)
    (eid cal det : String) :
    (svcDelete cal eid = .error (.httpError 404 det) →
      delete_event svcDelete eid cal
        = { success := false, event_id := eid
            error := some ("Event '" ++ eid ++ "' not found") }
      ∧ strHasSub (optStr (delete_event svcDelete eid cal).error) "not found" = true
      ∧ format_delete_event_result (delete_event svcDelete eid cal)
          = "❌ Failed to delete event: " ++ ("Event '" ++ eid ++ "' not found"))
    ∧ (svcDelete cal eid = .ok () →
      delete_event svcDelete eid cal
        = { success := true, event_id := eid
            message := some ("✓ Event '" ++ eid ++ "' deleted successfully") }
      ∧ format_delete_event_result (delete_event svcDelete eid cal)
          = "✅ " ++ ("✓ Event '" ++ eid ++ "' deleted successfully")) := by
  constructor
  · intro h
    have hd : delete_event svcDelete eid cal
        = { success := false, event_id := eid
            error := some ("Event '" ++ eid ++ "' not found") } := by
      simp [delete_event, h]
    refine ⟨hd, ?_, ?_⟩
    · rw [hd]
      show strHasSub ("Event '" ++ eid ++ "' not found") "not found" = true
      have key : (("Event '" ++ eid) ++ "' ") ++ "not found"
          = ("Event '" ++ eid) ++ "' not found" := by
        rw [String.append_assoc]
        rfl
      rw [show ("Event '" ++ eid ++ "' not found")
            = (("Event '" ++ eid) ++ "' ") ++ "not found" from key.symm]
      exact strHasSub_suffix _ _
    · rw [hd]
      rfl
  · intro h
    have hd : delete_event svcDelete eid cal
        = { success := true, event_id := eid
            message := some ("✓ Event '" ++ eid ++ "' deleted successfully") } := by
      simp [delete_event, h]
    exact ⟨hd, by rw [hd]; rfl⟩

/-- Closed witness for C6 at a concrete event id, on both the 404 and the
success service. -/
theorem c6_delete_event_404_witness :
    (delete_event svc404 "abc123" "primary"
        = { success := false, event_id := "abc123"
            error := some ("Event '" ++ "abc123" ++ "' not found") }
      ∧ strHasSub (optStr (delete_event svc404 "abc123" "primary").error)
          "not found" = true
      ∧ format_delete_event_result (delete_event svc404 "abc123" "primary")
          = "❌ Failed to delete event: " ++ ("Event '" ++ "abc123" ++ "' not found"))
    ∧ (delete_event svcDeleteOk "abc123" "primary"
        = { success := true, event_id := "abc123"
            message := some ("✓ Event '" ++ "abc123" ++ "' deleted successfully") }
      ∧ format_delete_event_result (delete_event svcDeleteOk "abc123" "primary")
          = "✅ " ++ ("✓ Event '" ++ "abc123" ++ "' deleted successfully")) :=
  ⟨(c6_delete_event_404 svc404 "abc123" "primary" "notFound").1 rfl,
   (c6_delete_event_404 svcDeleteOk "abc123" "primary" "notFound").2 rfl⟩

/-- A `json.loads` oracle returning a fixed decoded value. -/
def jsonLoadsConst (j : Json) : String → Except Unit Json := fun _ => .ok j

/-- A `json.loads` oracle that always raises `JSONDecodeError`. -/
def jsonLoadsFail : String → Except Unit Json := fun _ => .error ()

/-- C10: `delete_event_tool` accepts — besides a bare id — a stripped input
starting with a brace: when it parses as JSON, the event deleted is the one
named by the object's `event_id` key, else by its `id` key; when the braced
input is not valid JSON, the stripped raw input itself is used as the event
id; a non-braced input is used as the id directly. -/
theorem c10_delete_tool_input_forms (jsonLoads : String → Except Unit Json)
    (svcDelete : String → String → Except ApiErr Unit) (s : String) :
    (∀ fields v, pyStartsWith (pyStrip s) "\x7b" = true →
      jsonLoads (pyStrip s) = .ok (Json.obj fields) →
      fields.lookup "event_id" = some (Json.str v) →
      delete_event_tool jsonLoads svcDelete s
        = .ok (format_delete_event_result
            (delete_event svcDelete v DEFAULT_CALENDAR_ID)))
    ∧ (∀ fields v, pyStartsWith (pyStrip s) "\x7b" = true →
      jsonLoads (pyStrip s) = .ok (Json.obj fields) →
      (fields.any fun kv => kv.1 == "event_id") = false →
      fields.lookup "id" = some (Json.str v) →
      delete_event_tool jsonLoads svcDelete s
        = .ok (format_delete_event_result
            (delete_event svcDelete v DEFAULT_CALENDAR_ID)))
    ∧ (pyStartsWith (pyStrip s) "\x7b" = true →
      jsonLoads (pyStrip s) = .error () →
      delete_event_tool jsonLoads svcDelete s
        = .ok (format_delete_event_result
            (delete_event svcDelete (pyStrip s) DEFAULT_CALENDAR_ID)))
    ∧ (pyStartsWith (pyStrip s) "\x7b" = false →
      delete_event_tool jsonLoads svcDelete s
        = .ok (format_delete_event_result
            (delete_event svcDelete (pyStrip s) DEFAULT_CALENDAR_ID))) := by
  refine ⟨?_, ?_, ?_, ?_⟩
  · intro fields v hstart hparse hlook
    have hany := lookup_some_any fields "event_id" (Json.str v) hlook
    simp [delete_event_tool, hstart, hparse, pyContainsKey, hany, pyGetItem,
      hlook, pyStrOfJson, Bind.bind, Except.bind, Pure.pure, Except.pure,
      Functor.map, Except.map]
  · intro fields v hstart hparse hanyF hlook
    have hany := lookup_some_any fields "id" (Json.str v) hlook
    simp [delete_event_tool, hstart, hparse, pyContainsKey, hanyF, hany,
      pyGetItem, hlook, pyStrOfJson, Bind.bind, Except.bind, Pure.pure,
      Except.pure, Functor.map, Except.map]
  · intro hstart hparse
    simp [delete_event_tool, hstart, hparse, Bind.bind, Except.bind, Pure.pure,
      Except.pure]
  · intro hstart
    simp [delete_event_tool, hstart, Bind.bind, Except.bind, Pure.pure,
      Except.pure]

/-- Closed witness for C10: a braced input whose JSON carries an `event_id`. -/
theorem c10_delete_tool_input_forms_witness :
    delete_event_tool (jsonLoadsConst (Json.obj [("event_id", Json.str "abc123")]))
        svcDeleteOk "\x7bevent_id: abc123\x7d"
      = .ok (format_delete_event_result
          (delete_event svcDeleteOk "abc123" DEFAULT_CALENDAR_ID)) :=
  (c10_delete_tool_input_forms
      (jsonLoadsConst (Json.obj [("event_id", Json.str "abc123")]))
      svcDeleteOk "\x7bevent_id: abc123\x7d").1
    [("event_id", Json.str "abc123")] "abc123" (by decide) rfl rfl

theorem bindUpdate_ok_event_id (fields : List (String × Json))
    (args : UpdateEventArgs)
    (h : bindUpdateEventArgs (Json.obj fields) = .ok args) :
    fields.lookup "event_id" = some args.event_id := by
  simp only [bindUpdateEventArgs] at h
  cases hall : (fields.all fun kv => updateAllowedKeys.contains kv.1) with
  | false => rw [hall] at h; simp at h
  | true =>
    rw [hall] at h
    cases hl : fields.lookup "event_id" with
    | none => rw [hl] at h; simp at h
    | some v =>
      rw [hl] at h
      simp only [Bool.not_true, Bool.false_eq_true, if_false,
        Except.ok.injEq] at h
      rw [← h]

/-- A patch service oracle; the error text flags that the backend was
reached. -/
def svcPatchStub : Json → Json → PatchBody → Except ApiErr ApiEvent :=
  fun _ _ _ => .error (.exc "backend reached")

/-- C7: a JSON object input without an `event_id` key makes
`update_event_tool` return exactly `❌ Missing required field: 'event_id'`,
whatever the backend oracle is (no backend call can influence the result —
the wrapper returns before `update_event`); with an `event_id` present the
`**params` binding succeeds whenever the other keys are among the optional
parameter names, every one of which may be absent, and the backend is then
consulted exactly through `update_event`. -/
theorem c7_update_event_id_required (jsonLoads : String → Except Unit Json)
    (svcPatch : Json → Json → PatchBody → Except ApiErr ApiEvent)
    (s : String) (fields : List (String × Json))
    (hparse : jsonLoads s = .ok (Json.obj fields)) :
    ((fields.any fun kv => kv.1 == "event_id") = false →
      ∀ svcPatch2 : Json → Json → PatchBody → Except ApiErr ApiEvent,
        update_event_tool jsonLoads svcPatch2 s
          = .ok "❌ Missing required field: 'event_id'")
    ∧ (∀ args, bindUpdateEventArgs (Json.obj fields) = .ok args →
        update_event_tool jsonLoads svcPatch s
          = .ok (updateObservation (update_event svcPatch args)))
    ∧ (∀ v, fields.lookup "event_id" = some v →
        (fields.all fun kv => updateAllowedKeys.contains kv.1) = true →
        ∃ args, bindUpdateEventArgs (Json.obj fields) = .ok args
          ∧ args.event_id = v) := by
  refine ⟨?_, ?_, ?_⟩
  · intro hany svcPatch2
    simp [update_event_tool, hparse, pyContainsKey, hany]
  · intro args hbind
    have hlook := bindUpdate_ok_event_id fields args hbind
    have hany := lookup_some_any fields "event_id" args.event_id hlook
    simp [update_event_tool, hparse, pyContainsKey, hany, hbind]
  · intro v hlook hall
    refine ⟨{ event_id := v
              summary := (fields.lookup "summary").getD Json.null
              start_datetime := (fields.lookup "start_datetime").getD Json.null
              end_datetime := (fields.lookup "end_datetime").getD Json.null
              description := (fields.lookup "description").getD Json.null
              location := (fields.lookup "location").getD Json.null
              calendar_id := (fields.lookup "calendar_id").getD
                (Json.str DEFAULT_CALENDAR_ID) }, ?_, rfl⟩
    simp only [bindUpdateEventArgs, hall, hlook, Bool.not_true,
      Bool.false_eq_true, if_false]

/-- Closed witness for C7: an input whose JSON object has only a `summary`
key; the tool rejects it without consulting the backend. -/
theorem c7_update_event_id_required_witness :
    update_event_tool (jsonLoadsConst (Json.obj [("summary", Json.str "Standup")]))
        svcPatchStub "summary Standup"
      = .ok "❌ Missing required field: 'event_id'" :=
  ((c7_update_event_id_required
      (jsonLoadsConst (Json.obj [("summary", Json.str "Standup")]))
      svcPatchStub "summary Standup"
      [("summary", Json.str "Standup")] rfl).1 rfl) svcPatchStub

/-- An upcoming-events service oracle returning an empty calendar. -/
def svcUpStub : SvcUpcoming := fun _ _ _ => .ok []

/-- C8: `upcoming_events_tool` calls the backend with the default 10 when the
input is empty after quote/whitespace stripping (and its absent-input default
is the string "10", which parses to 10); with the stripped input parsing as an
integer `n` it calls the backend with `n`; and with a non-integer stripped
input it returns the fixed error text for every backend oracle — the backend
is not consulted. -/
theorem c8_upcoming_tool_max_results (nowIso : String) (svcUp : SvcUpcoming)
    (s : String) :
    (stripQuotes s = "" →
      upcoming_events_tool nowIso svcUp s
        = .ok (format_upcoming_events_result
            (list_upcoming_events nowIso svcUp 10 DEFAULT_CALENDAR_ID)))
    ∧ (upcoming_events_tool nowIso svcUp "10"
        = .ok (format_upcoming_events_result
            (list_upcoming_events nowIso svcUp 10 DEFAULT_CALENDAR_ID)))
    ∧ (∀ n : Int, stripQuotes s ≠ "" → pyInt (stripQuotes s) = some n →
      upcoming_events_tool nowIso svcUp s
        = .ok (format_upcoming_events_result
            (list_upcoming_events nowIso svcUp n DEFAULT_CALENDAR_ID)))
    ∧ (stripQuotes s ≠ "" → pyInt (stripQuotes s) = none →
      ∀ svcUp2 : SvcUpcoming,
        upcoming_events_tool nowIso svcUp2 s
          = .ok "❌ max_results must be a number (integer)") := by
  refine ⟨?_, ?_, ?_, ?_⟩
  · intro hemp
    have hz : ("" : String).isEmpty = true := rfl
    simp [upcoming_events_tool, hemp, hz]
  · rfl
  · intro n hne hint
    have hemp : (stripQuotes s).isEmpty = false := by
      by_contra hb
      simp only [Bool.not_eq_false] at hb
      exact hne ((String.isEmpty_iff _).mp hb)
    simp [upcoming_events_tool, hemp, hint]
  · intro hne hint svcUp2
    have hemp : (stripQuotes s).isEmpty = false := by
      by_contra hb
      simp only [Bool.not_eq_false] at hb
      exact hne ((String.isEmpty_iff _).mp hb)
    simp [upcoming_events_tool, hemp, hint]

/-- Closed witness for C8: the quoted input `"7"` is stripped and parsed,
and the backend receives 7. -/
theorem c8_upcoming_tool_max_results_witness :
    upcoming_events_tool "2025-10-12T00:00:00Z" svcUpStub " \"7\" "
      = .ok (format_upcoming_events_result
          (list_upcoming_events "2025-10-12T00:00:00Z" svcUpStub 7
            DEFAULT_CALENDAR_ID)) :=
  (c8_upcoming_tool_max_results "2025-10-12T00:00:00Z" svcUpStub
      " \"7\" ").2.2.1 7 (by decide) (by decide)

/-- Exactly the unabbreviated bare ISO 8601 local form `YYYY-MM-DDTHH:MM:SS`:
19 characters, digits and fixed separators, no zone suffix. -/
def isBareIsoChars : List Char → Bool
  | [a, b, c, d, e, f, g, h, i, j, k, l, m, n, o, p, q, r, t] =>
      ([a, b, c, d, f, g, i, j, l, m, o, p, r, t].all Char.isDigit)
      && (e == '-') && (h == '-') && (k == 'T') && (n == ':') && (q == ':')
  | _ => false

/-- Whether a string is exactly of the form `YYYY-MM-DDTHH:MM:SS`. -/
def isBareIso (s : String) : Bool :=
  isBareIsoChars s.toList

theorem availability_query_fields (svcRange : SvcRange) (cal a b : String) :
    (availability_query svcRange cal a b).start = some a
    ∧ (availability_query svcRange cal a b).endTime = some b := by
  unfold availability_query
  cases h : svcRange cal a b with
  | ok events => cases events <;> simp
  | error e => cases e <;> simp

/-- C5 (amended): for naive datetime inputs (no 'Z' and no '+', parsed by
`fromisoformat` with no attached offset), `check_availability` localizes both
to the configured default time zone before querying the backend — the whole
call reduces to `availability_query` applied to the localized strings — and
the observation's `start`/`end` fields are the bare ISO text with the zone's
UTC-offset suffix appended, not the bare 19-character form itself. -/
theorem c5_naive_inputs_localized (fromiso : FromIso) (tzLocalize : TzLocalize)
    (svcRange : SvcRange) (s1 s2 cal : String) (t1 t2 : NaiveDT)
    (hz1 : (strHasChar s1 'Z' || strHasChar s1 '+') = false)
    (hz2 : (strHasChar s2 'Z' || strHasChar s2 '+') = false)
    (hp1 : fromiso s1 = .ok (t1, none))
    (hp2 : fromiso s2 = .ok (t2, none)) :
    check_availability fromiso tzLocalize svcRange s1 s2 cal
      = availability_query svcRange cal (t1.iso ++ offsetIso (tzLocalize t1))
          (t2.iso ++ offsetIso (tzLocalize t2))
    ∧ (check_availability fromiso tzLocalize svcRange s1 s2 cal).start
        = some (t1.iso ++ offsetIso (tzLocalize t1))
    ∧ (check_availability fromiso tzLocalize svcRange s1 s2 cal).endTime
        = some (t2.iso ++ offsetIso (tzLocalize t2)) := by
  have hmain : check_availability fromiso tzLocalize svcRange s1 s2 cal
      = availability_query svcRange cal (t1.iso ++ offsetIso (tzLocalize t1))
          (t2.iso ++ offsetIso (tzLocalize t2)) := by
    simp [check_availability, localize_if_needed, hz1, hz2, hp1, hp2, awareIso]
  refine ⟨hmain, ?_, ?_⟩
  · rw [hmain]; exact (availability_query_fields svcRange cal _ _).1
  · rw [hmain]; exact (availability_query_fields svcRange cal _ _).2

/-- The Asia/Beirut wall time 2025-01-15 at hour `h` (zero minutes/seconds). -/
def jan15at (h : Nat) : NaiveDT :=
  { year := 2025, month := 1, day := 15, hour := h, minute := 0, second := 0 }

/-- A `fromisoformat` oracle for the two concrete January 2025 instants used
by the C5 witnesses. -/
def fromisoJan15 : FromIso := fun s =>
  if s = "2025-01-15T10:00:00" then .ok (jan15at 10, none)
  else if s = "2025-01-15T11:00:00" then .ok (jan15at 11, none)
  else .error (.valueError "Invalid isoformat string")

/-- The UTC offset `pytz.timezone('Asia/Beirut').localize` attaches in
January (winter, EET): +02:00, i.e. 120 minutes. -/
def beirutWinterOffset : TzLocalize := fun _ => 120

/-- A range service oracle reporting an empty calendar. -/
def svcRangeEmpty : SvcRange := fun _ _ _ => .ok []

/-- C5: as stated the claim fails — on the naive input
`2025-01-15T10:00:00` (Asia/Beirut winter offset +02:00) the observation's
`start` field is `2025-01-15T10:00:00+02:00`, which is not the bare
`YYYY-MM-DDTHH:MM:SS` form: `isoformat()` of the localized datetime appends
the UTC offset. -/
theorem c5_counterexample :
    (check_availability fromisoJan15 beirutWinterOffset svcRangeEmpty
        "2025-01-15T10:00:00" "2025-01-15T11:00:00" DEFAULT_CALENDAR_ID).start
      = some "2025-01-15T10:00:00+02:00"
    ∧ isBareIso "2025-01-15T10:00:00+02:00" = false := by
  constructor
  · rfl
  · rfl

/-- Closed witness for the amended C5 at the same concrete run. -/
theorem c5_naive_inputs_localized_witness :
    check_availability fromisoJan15 beirutWinterOffset svcRangeEmpty
        "2025-01-15T10:00:00" "2025-01-15T11:00:00" DEFAULT_CALENDAR_ID
      = availability_query svcRangeEmpty DEFAULT_CALENDAR_ID
          ((jan15at 10).iso ++ offsetIso (beirutWinterOffset (jan15at 10)))
          ((jan15at 11).iso ++ offsetIso (beirutWinterOffset (jan15at 11)))
    ∧ (check_availability fromisoJan15 beirutWinterOffset svcRangeEmpty
        "2025-01-15T10:00:00" "2025-01-15T11:00:00" DEFAULT_CALENDAR_ID).start
        = some ((jan15at 10).iso ++ offsetIso (beirutWinterOffset (jan15at 10)))
    ∧ (check_availability fromisoJan15 beirutWinterOffset svcRangeEmpty
        "2025-01-15T10:00:00" "2025-01-15T11:00:00" DEFAULT_CALENDAR_ID).endTime
        = some ((jan15at 11).iso ++ offsetIso (beirutWinterOffset (jan15at 11))) :=
  c5_naive_inputs_localized fromisoJan15 beirutWinterOffset svcRangeEmpty
    "2025-01-15T10:00:00" "2025-01-15T11:00:00" DEFAULT_CALENDAR_ID
    (jan15at 10) (jan15at 11) (by decide) (by decide) rfl rfl

theorem any_lookup_some (fields : List (String × Json)) (k : String)
    (h : (fields.any fun kv => kv.1 == k) = true) :
    ∃ v, fields.lookup k = some v := by
  induction fields with
  | nil => simp at h
  | cons kv t ih =>
    rw [List.any_cons] at h
    cases hk : (kv.1 == k) with
    | true =>
      have he : kv.1 = k := eq_of_beq hk
      refine ⟨kv.2, ?_⟩
      rw [List.lookup]
      have hke : (k == kv.1) = true := by rw [he]; exact beq_self_eq_true k
      simp [hke]
    | false =>
      rw [hk, Bool.false_or] at h
      obtain ⟨v, hv⟩ := ih h
      refine ⟨v, ?_⟩
      rw [List.lookup]
      have hke : (k == kv.1) = false := by
        by_cases he : k = kv.1
        · subst he; simp at hk
        · exact beq_eq_false_iff_ne.mpr he
      simp [hke, hv]

/-- Whether an `Except` computation ended without a raised exception. -/
def exceptIsOk {α β : Type} : Except α β → Bool
  | .ok _ => true
  | .error _ => false

theorem exceptIsOk_exists {α β : Type} (x : Except α β)
    (h : exceptIsOk x = true) : ∃ out, x = .ok out := by
  cases x with
  | ok o => exact ⟨o, rfl⟩
  | error e => simp [exceptIsOk] at h

/-- An insert service oracle representing an unreachable backend. -/
def svcInsertStub : Json → EventBody → Except ApiErr ApiEvent :=
  fun _ _ => .error (.exc "offline")

/-- A `fromisoformat` oracle that always raises `ValueError`. -/
def fromisoFail : FromIso := fun _ => .error (.valueError "Invalid isoformat string")

/-- A `strptime` oracle that always raises `ValueError`. -/
def strptimeFail : String → Except PyErr NaiveDT :=
  fun _ => .error (.valueError "time data does not match format")

/-- C4: every one of the six tool wrapper functions returns a string and
never lets an exception cross the dispatch boundary, for every input string
and every behavior of the backend oracles: invalid JSON, binding errors,
backend errors and unexpected exceptions all end as `Except.ok` error text.
For `delete_event_tool` (whose inner `try` catches only `JSONDecodeError`)
this additionally uses the grammar fact that `json.loads` yields an object
for any brace-led string it accepts. -/
theorem c4_tools_never_raise
    (jsonLoads : String → Except Unit Json)
    (hJson : ∀ s j, jsonLoads s = .ok j → pyStartsWith s "\x7b" = true →
      ∃ fields, j = Json.obj fields)
    (svcInsert : Json → EventBody → Except ApiErr ApiEvent)
    (svcDelete : String → String → Except ApiErr Unit)
    (fromiso : FromIso) (tzLocalize : TzLocalize) (svcRange : SvcRange)
    (today nowIso : String)
    (strptime : String → Except PyErr NaiveDT)
    (svcUp : SvcUpcoming)
    (svcPatch : Json → Json → PatchBody → Except ApiErr ApiEvent)
    (s : String) :
    (∃ out, create_event_tool jsonLoads svcInsert s = .ok out)
    ∧ (∃ out, delete_event_tool jsonLoads svcDelete s = .ok out)
    ∧ (∃ out, check_availability_tool jsonLoads fromiso tzLocalize svcRange s
        = .ok out)
    ∧ (∃ out, daily_report_tool today strptime tzLocalize svcRange s = .ok out)
    ∧ (∃ out, upcoming_events_tool nowIso svcUp s = .ok out)
    ∧ (∃ out, update_event_tool jsonLoads svcPatch s = .ok out) := by
  refine ⟨?_, ?_, ?_, ?_, ?_, ?_⟩
  all_goals apply exceptIsOk_exists
  · cases hj : jsonLoads s with
    | error e => simp [create_event_tool, exceptIsOk, hj]
    | ok params =>
      cases hb : bindCreateArgs params with
      | error e => simp [create_event_tool, exceptIsOk, hj, hb]
      | ok args =>
        obtain ⟨a1, a2, a3, a4, a5, a6, a7⟩ := args
        simp [create_event_tool, exceptIsOk, hj, hb]
  · cases hstart : pyStartsWith (pyStrip s) "\x7b" with
    | false =>
      simp [delete_event_tool, exceptIsOk, hstart, Bind.bind, Except.bind,
        Pure.pure, Except.pure]
    | true =>
      cases hj : jsonLoads (pyStrip s) with
      | error e =>
        simp [delete_event_tool, exceptIsOk, hstart, hj, Bind.bind,
          Except.bind, Pure.pure, Except.pure]
      | ok j =>
        obtain ⟨fields, rfl⟩ := hJson (pyStrip s) j hj hstart
        cases hany : (fields.any fun kv => kv.1 == "event_id") with
        | true =>
          obtain ⟨v, hl⟩ := any_lookup_some fields "event_id" hany
          simp [delete_event_tool, exceptIsOk, hstart, hj, pyContainsKey,
            hany, pyGetItem, hl, Bind.bind, Except.bind, Pure.pure,
            Except.pure, Functor.map, Except.map]
        | false =>
          cases hany2 : (fields.any fun kv => kv.1 == "id") with
          | true =>
            obtain ⟨v, hl⟩ := any_lookup_some fields "id" hany2
            simp [delete_event_tool, exceptIsOk, hstart, hj, pyContainsKey,
              hany, hany2, pyGetItem, hl, Bind.bind, Except.bind, Pure.pure,
              Except.pure, Functor.map, Except.map]
          | false =>
            simp [delete_event_tool, exceptIsOk, hstart, hj, pyContainsKey,
              hany, hany2, Bind.bind, Except.bind, Pure.pure, Except.pure]
  · cases hj : jsonLoads s with
    | error e => simp [check_availability_tool, exceptIsOk, hj]
    | ok params =>
      cases hb : bindAvailArgs params with
      | error e => simp [check_availability_tool, exceptIsOk, hj, hb]
      | ok args =>
        obtain ⟨a1, a2, a3⟩ := args
        cases a1 <;> cases a2 <;>
          simp [check_availability_tool, exceptIsOk, hj, hb]
  · simp [daily_report_tool, exceptIsOk]
  · cases hemp : (stripQuotes s).isEmpty with
    | true => simp [upcoming_events_tool, exceptIsOk, hemp]
    | false =>
      cases hint : pyInt (stripQuotes s) with
      | none => simp [upcoming_events_tool, exceptIsOk, hemp, hint]
      | some n => simp [upcoming_events_tool, exceptIsOk, hemp, hint]
  · cases hj : jsonLoads s with
    | error e => simp [update_event_tool, exceptIsOk, hj]
    | ok params =>
      cases hc : pyContainsKey params "event_id" with
      | error e => simp [update_event_tool, exceptIsOk, hj, hc]
      | ok hasKey =>
        cases hasKey with
        | false => simp [update_event_tool, exceptIsOk, hj, hc]
        | true =>
          cases hb : bindUpdateEventArgs params with
          | error e => simp [update_event_tool, exceptIsOk, hj, hc, hb]
          | ok args => simp [update_event_tool, exceptIsOk, hj, hc, hb]

/-- Closed witness for C4: concrete stub oracles (a failing `json.loads`
discharges the grammar side condition vacuously). -/
theorem c4_tools_never_raise_witness :
    (∃ out, create_event_tool jsonLoadsFail svcInsertStub "x" = .ok out)
    ∧ (∃ out, delete_event_tool jsonLoadsFail svcDeleteOk "x" = .ok out)
    ∧ (∃ out, check_availability_tool jsonLoadsFail fromisoFail
        beirutWinterOffset svcRangeEmpty "x" = .ok out)
    ∧ (∃ out, daily_report_tool "2025-10-12" strptimeFail beirutWinterOffset
        svcRangeEmpty "x" = .ok out)
    ∧ (∃ out, upcoming_events_tool "2025-10-12T00:00:00Z" svcUpStub "x"
        = .ok out)
    ∧ (∃ out, update_event_tool jsonLoadsFail svcPatchStub "x" = .ok out) :=
  c4_tools_never_raise jsonLoadsFail
    (fun s j h _ => by simp [jsonLoadsFail] at h)
    svcInsertStub svcDeleteOk fromisoFail beirutWinterOffset svcRangeEmpty
    "2025-10-12" "2025-10-12T00:00:00Z" strptimeFail svcUpStub svcPatchStub "x"
